import Mathlib

/-!
# Funding Ledger Updater — verification of the hopegate schema logic

Shallow embedding of the donation-settlement logic of the hopegate
repository: the PostgreSQL trigger function `update_project_raised_amount`
(migration `20251204115400_create_hope_bridge_schema.sql`), the
`on_donation_completed` trigger wiring (`AFTER UPDATE ON donations`), the
relevant table constraints (`donations.amount > 0` CHECK, the
`donations.project_id` foreign key), and the client-side `handleDonate`
insert of `DonationModal`.

Monetary columns are `decimal(12, 2)`; such values are exact multiples of
0.01, so we represent them as integers counting cents (`Int`). Timestamps
(`timestamptz`) are represented as `Nat` ticks; `uuid` keys as `Nat`.
-/

namespace HopeGate

/-- The `project_status` enum:
`('draft', 'pending_review', 'active', 'fully_funded', 'completed', 'cancelled')`. -/
inductive ProjectStatus where
  | draft
  | pending_review
  | active
  | fully_funded
  | completed
  | cancelled
deriving DecidableEq, Repr

/-- The `donation_status` enum: `('pending', 'completed', 'refunded')`. -/
inductive DonationStatus where
  | pending
  | completed
  | refunded
deriving DecidableEq, Repr

/-- A row of the `projects` table. Columns not read or written by any
operation in scope (`description`, `category_id`, `location`, `start_date`,
`image_url`, `created_at`) are kept where they matter for frame conditions:
we keep `creator_id`, `title`, `end_date` and `created_at` as
representatives so that "only `raised_amount`, `status` and `updated_at`
change" is a non-trivial statement. -/
structure Project where
  id : Nat
  creator_id : Nat
  title : String
  goal_amount : Int
  raised_amount : Int
  status : ProjectStatus
  end_date : Option Nat
  created_at : Nat
  updated_at : Nat
deriving DecidableEq, Repr

/-- A row of the `donations` table:
`donor_id` is nullable (`ON DELETE SET NULL`), `project_id` is
`NOT NULL REFERENCES projects(id)`, `amount decimal(12,2) NOT NULL`,
`transaction_id text UNIQUE` (nullable), `status donation_status`,
`message text`, `is_anonymous boolean`. `created_at` is filled by the
database default and read by no operation in scope. -/
structure Donation where
  id : Nat
  donor_id : Option Nat
  project_id : Nat
  amount : Int
  transaction_id : Option String
  status : DonationStatus
  message : String
  is_anonymous : Bool
deriving DecidableEq, Repr

/-- The `SET` clause of the `UPDATE projects` statement inside
`update_project_raised_amount`:

```
SET raised_amount = raised_amount + NEW.amount,
    status = CASE
      WHEN raised_amount + NEW.amount >= goal_amount THEN 'fully_funded'
      ELSE status
    END,
    updated_at = now()
```

Column references on the right-hand side of a `SET` read the pre-update
row, so both `raised_amount` occurrences and `status` in the `CASE`
denote the old values. -/
def applyCompletedDonation (amount : Int) (now : Nat) (p : Project) : Project :=
  { p with
    raised_amount := p.raised_amount + amount,
    status :=
      if p.raised_amount + amount ≥ p.goal_amount then ProjectStatus.fully_funded
      else p.status,
    updated_at := now }

/-- The effect of one invocation of the trigger function
`update_project_raised_amount` on one row of the `projects` table:
the row is rewritten by the inner `UPDATE ... WHERE id = NEW.project_id`
exactly when the guard
`NEW.status = 'completed' AND OLD.status != 'completed'` holds and the
row's `id` matches `NEW.project_id`; otherwise it is untouched. -/
def triggerProjectRow (oldD newD : Donation) (now : Nat) (p : Project) : Project :=
  if newD.status = DonationStatus.completed ∧ oldD.status ≠ DonationStatus.completed then
    if p.id = newD.project_id then applyCompletedDonation newD.amount now p else p
  else p

/-- The trigger function `update_project_raised_amount`, fired
`FOR EACH ROW` with `OLD` and `NEW` donation rows: it rewrites the
`projects` table through `triggerProjectRow` and ends with `RETURN NEW`
(second component). -/
def update_project_raised_amount (oldD newD : Donation) (now : Nat)
    (projects : List Project) : List Project × Donation :=
  (projects.map (triggerProjectRow oldD newD now), newD)

/-- The database state restricted to the two tables in scope. -/
structure DB where
  projects : List Project
  donations : List Donation
deriving DecidableEq, Repr

/-- Whether a project with the given id exists (the referent required by
the foreign key `donations.project_id REFERENCES projects(id)`). -/
def projectExists (db : DB) (pid : Nat) : Bool :=
  db.projects.any (fun p => p.id = pid)

/-- Row-level write constraints on a donation row: the
`CHECK (amount > 0)` constraint and the foreign-key constraint on
`project_id`. A write violating either aborts as a whole. -/
def donationRowValid (db : DB) (d : Donation) : Bool :=
  decide (0 < d.amount) && projectExists db d.project_id

/-- `INSERT INTO donations ...`: the constraints are checked and, on
violation, the statement aborts with no state change (`none`). The
`on_donation_completed` trigger is declared `AFTER UPDATE ON donations`,
so no trigger fires on an insert and the `projects` table is untouched. -/
def insertDonation (db : DB) (d : Donation) : Option DB :=
  if donationRowValid db d then
    some { db with donations := db.donations ++ [d] }
  else none

/-- A single-row `UPDATE donations` replacing the row `oldD` by `newD`
(same primary key), followed by the `AFTER UPDATE` trigger
`on_donation_completed` executing `update_project_raised_amount`. A
constraint violation aborts the whole statement, trigger included
(`none`), leaving every table unchanged. -/
def updateDonation (db : DB) (oldD newD : Donation) (now : Nat) : Option DB :=
  if donationRowValid db newD then
    let r := update_project_raised_amount oldD newD now db.projects
    some { projects := r.1,
           donations := db.donations.map (fun d => if d.id = oldD.id then r.2 else d) }
  else none

/-- `handleDonate` of `DonationModal`: the parsed amount is rejected when
not a positive number (`isNaN(donationAmount) || donationAmount <= 0`,
surfaced as "Please enter a valid amount"); otherwise the inserted row
carries the user's id as donor, the modal's project id, the amount, a
fresh transaction id, and `status: 'completed'`. The non-numeric
(`NaN`) case is subsumed in the rejection branch. -/
def handleDonate (userId : Nat) (projectId : Nat) (donationAmount : Int)
    (message : String) (isAnonymous : Bool) (newId : Nat) (txn : String) :
    Option Donation :=
  if donationAmount ≤ 0 then none
  else
    some { id := newId,
           donor_id := some userId,
           project_id := projectId,
           amount := donationAmount,
           transaction_id := some txn,
           status := DonationStatus.completed,
           message := message,
           is_anonymous := isAnonymous }

/-- Replaying a sequence of status values written to one donation row:
starting from current status `cur`, each element `s` of the list is one
`UPDATE donations SET status = s` on that row, firing
`on_donation_completed` each time. Returns the final `projects` table. -/
def runStatusTransitions (d : Donation) (now : Nat) :
    DonationStatus → List DonationStatus → List Project → List Project
  | _, [], ps => ps
  | cur, s :: rest, ps =>
      runStatusTransitions d now s rest
        (update_project_raised_amount { d with status := cur } { d with status := s } now ps).1

/-- The number of transitions into `completed` along a status sequence
starting from `cur`: positions whose written value is `completed` while
the preceding value is not. -/
def entriesIntoCompleted : DonationStatus → List DonationStatus → Nat
  | _, [] => 0
  | cur, s :: rest =>
      (if s = DonationStatus.completed ∧ cur ≠ DonationStatus.completed then 1 else 0)
        + entriesIntoCompleted s rest

/-- A concrete project row used to instantiate the claims' scenarios
(the `status=cancelled, raised_amount=20, goal_amount=50` project of the
terminal-state scenario; other scenarios adjust it with record updates). -/
def sampleProject : Project :=
  { id := 1, creator_id := 7, title := "Clean Water",
    goal_amount := 50, raised_amount := 20,
    status := ProjectStatus.cancelled,
    end_date := none, created_at := 0, updated_at := 0 }

/-- A concrete donation row targeting `sampleProject`, in `pending`
status with `amount = 40`. -/
def sampleDonation : Donation :=
  { id := 10, donor_id := some 3, project_id := 1, amount := 40,
    transaction_id := some "txn_1", status := DonationStatus.pending,
    message := "", is_anonymous := false }

/-- The sample donation after its status write to `completed`. -/
def completedSample : Donation :=
  { sampleDonation with status := DonationStatus.completed }

/-- A one-project database holding `sampleProject` and no donations. -/
def sampleDB : DB :=
  { projects := [sampleProject], donations := [] }

/-- The row the donation modal's `handleDonate` builds for user 3 donating
25 to project 1 with message "hi", fresh id 20 and transaction "txn_2". -/
def modalRow : Donation :=
  { id := 20, donor_id := some 3, project_id := 1, amount := 25,
    transaction_id := some "txn_2", status := DonationStatus.completed,
    message := "hi", is_anonymous := false }

/-- The `goal_amount=100, raised_amount=0, status=active` project of the
two-donation threshold scenario. -/
def activeProject : Project :=
  { sampleProject with
    goal_amount := 100,
    raised_amount := 0,
    status := ProjectStatus.active }

/-- Donation A of the threshold scenario: `amount=60`, pending. -/
def donA : Donation := { sampleDonation with id := 11, amount := 60 }

/-- Donation B of the threshold scenario: `amount=50`, pending. -/
def donB : Donation := { sampleDonation with id := 12, amount := 50 }

/-- The threshold scenario's database: the active project plus the two
pending donations. -/
def thresholdDB : DB :=
  { projects := [activeProject], donations := [donA, donB] }

/-- A project with a goal far above the sample donation's amount, used to
replay status-flip sequences without reaching the threshold. -/
def bigGoalProject : Project :=
  { sampleProject with
    goal_amount := 1000,
    raised_amount := 0,
    status := ProjectStatus.active }

/-- Claim C1 (refuted as stated): on the spec's concrete scenario — project
with `status=cancelled`, `raised_amount=20`, `goal_amount=50`, receiving a
completed donation of `amount=40` — the trigger yields `raised_amount=60`
but sets `status` to `fully_funded`: the code has no terminal-state guard,
so the status does NOT remain `cancelled` as the claim asserts. -/
theorem C1_counterexample :
    ((update_project_raised_amount sampleDonation completedSample 5
        [sampleProject]).1.map (fun p => (p.raised_amount, p.status))
      = [(60, ProjectStatus.fully_funded)]) ∧
    ¬ ((update_project_raised_amount sampleDonation completedSample 5
        [sampleProject]).1.map (fun p => p.status)
      = [ProjectStatus.cancelled]) := by
  decide

/-- Claim C1, amended: for every project row matched by a donation
transitioning into `completed`, the trigger adds the amount to
`raised_amount` and sets `status` to `fully_funded` whenever the
post-increment total reaches `goal_amount`, REGARDLESS of the current
status — terminal states (`completed`, `cancelled`) included; only below
the threshold is the status left unchanged. -/
theorem C1_no_terminal_guard (oldD newD : Donation) (now : Nat) (p : Project)
    (hnew : newD.status = DonationStatus.completed)
    (hold : oldD.status ≠ DonationStatus.completed)
    (hid : p.id = newD.project_id) :
    (triggerProjectRow oldD newD now p).raised_amount
        = p.raised_amount + newD.amount ∧
    (p.raised_amount + newD.amount ≥ p.goal_amount →
      (triggerProjectRow oldD newD now p).status = ProjectStatus.fully_funded) ∧
    (p.raised_amount + newD.amount < p.goal_amount →
      (triggerProjectRow oldD newD now p).status = p.status) := by
  unfold triggerProjectRow applyCompletedDonation
  rw [if_pos ⟨hnew, hold⟩, if_pos hid]
  refine ⟨rfl, fun hge => ?_, fun hlt => ?_⟩
  · simp [hge]
  · simp [not_le.mpr hlt]

/-- Witness for `C1_no_terminal_guard` at the cancelled-project scenario:
the hypotheses hold and the cancelled project ends at `raised_amount=60`
with status forced to `fully_funded` by the threshold. -/
theorem C1_no_terminal_guard_witness :
    (triggerProjectRow sampleDonation completedSample 5
        sampleProject).raised_amount = sampleProject.raised_amount + 40 ∧
    (triggerProjectRow sampleDonation completedSample 5
        sampleProject).status = ProjectStatus.fully_funded := by
  have h := C1_no_terminal_guard sampleDonation completedSample 5
    sampleProject (by decide) (by decide) (by decide)
  exact ⟨h.1, h.2.1 (by decide)⟩

/-- Claim C2 (confirmed): an `INSERT` into `donations` never changes the
`projects` table — `on_donation_completed` is declared `AFTER UPDATE`
only — and every row built by the donation modal's `handleDonate` is
inserted with status `completed`, so the modal's donations never credit
any project's `raised_amount`. -/
theorem C2_insert_bypasses_trigger (db : DB) (d : Donation) (uid pid : Nat)
    (amt : Int) (msg : String) (anon : Bool) (nid : Nat) (txn : String) :
    (∀ db2, insertDonation db d = some db2 → db2.projects = db.projects) ∧
    (∀ d2, handleDonate uid pid amt msg anon nid txn = some d2 →
      d2.status = DonationStatus.completed) := by
  constructor
  · intro db2 hins
    unfold insertDonation at hins
    by_cases hv : donationRowValid db d
    · rw [if_pos hv] at hins
      cases hins
      rfl
    · rw [if_neg hv] at hins
      cases hins
  · intro d2 hmod
    unfold handleDonate at hmod
    by_cases hle : amt ≤ 0
    · rw [if_pos hle] at hmod
      cases hmod
    · rw [if_neg hle] at hmod
      cases hmod
      rfl

/-- Witness for `C2_insert_bypasses_trigger`: inserting the concrete row
that `handleDonate` builds for a 25-cent donation leaves the `projects`
table of a concrete database untouched, and that row has status
`completed`. -/
theorem C2_insert_bypasses_trigger_witness :
    ({ projects := [sampleProject], donations := [modalRow] } : DB).projects
      = sampleDB.projects ∧
    modalRow.status = DonationStatus.completed := by
  refine ⟨?_, ?_⟩
  · exact (C2_insert_bypasses_trigger sampleDB modalRow
      3 1 25 "hi" false 20 "txn_2").1
      { projects := [sampleProject], donations := [modalRow] }
      (by decide)
  · exact (C2_insert_bypasses_trigger sampleDB sampleDonation
      3 1 25 "hi" false 20 "txn_2").2 modalRow (by decide)

/-- Claim C4 (confirmed): the ledger update is a no-op on every donation
`UPDATE` whose status is `completed` on both sides, and on every `UPDATE`
that does not change the status field at all: the whole `projects` table
is returned unchanged. -/
theorem C4_no_refire (oldD newD : Donation) (now : Nat)
    (projects : List Project)
    (h : (oldD.status = DonationStatus.completed ∧
          newD.status = DonationStatus.completed) ∨
         newD.status = oldD.status) :
    (update_project_raised_amount oldD newD now projects).1 = projects := by
  have hcond : ¬ (newD.status = DonationStatus.completed ∧
      oldD.status ≠ DonationStatus.completed) := by
    rcases h with ⟨h1, _⟩ | h1
    · exact fun hc => hc.2 h1
    · exact fun hc => hc.2 (h1.symm.trans hc.1)
  unfold update_project_raised_amount triggerProjectRow
  simp [hcond]

/-- Witness for `C4_no_refire`: a concrete update that edits only the
message of an already-`completed` donation leaves the concrete
one-project table unchanged. -/
theorem C4_no_refire_witness :
    (update_project_raised_amount completedSample
      { completedSample with message := "edited" } 5
      [sampleProject]).1 = [sampleProject] :=
  C4_no_refire completedSample
    { completedSample with message := "edited" } 5 [sampleProject]
    (Or.inl ⟨rfl, rfl⟩)

/-- Claim C5 (confirmed): the threshold check uses the post-increment
total. Concretely: project `goal_amount=100, raised_amount=0, active`;
completing donation A (`amount=60`) yields `raised_amount=60`, still
`active`; then completing donation B (`amount=50`) yields
`raised_amount=110` and `fully_funded` (60 + 50 ≥ 100 even though the
pre-increment 60 < 100). -/
theorem C5_post_increment_threshold :
    ((updateDonation thresholdDB donA
        { donA with status := DonationStatus.completed } 1).bind
      (fun db1 => updateDonation db1 donB
        { donB with status := DonationStatus.completed } 2)).map
      (fun db => db.projects.map (fun p => (p.raised_amount, p.status)))
      = some [(110, ProjectStatus.fully_funded)] ∧
    (updateDonation thresholdDB donA
        { donA with status := DonationStatus.completed } 1).map
      (fun db => db.projects.map (fun p => (p.raised_amount, p.status)))
      = some [(60, ProjectStatus.active)] := by
  decide

/-- Claim C6 (confirmed): a donation write with `amount <= 0` violates the
`CHECK (amount > 0)` constraint, so both an `INSERT` and an `UPDATE`
carrying such a row abort as a whole (`none`): no donation row is stored
and no trigger runs, leaving every project row — `raised_amount`,
`status` and all other fields — exactly as it was. -/
theorem C6_nonpositive_amount_rejected (db : DB) (d oldD : Donation)
    (now : Nat) (hneg : d.amount ≤ 0) :
    insertDonation db d = none ∧ updateDonation db oldD d now = none := by
  have hval : donationRowValid db d = false := by
    unfold donationRowValid
    simp [not_lt.mpr hneg]
  unfold insertDonation updateDonation
  rw [hval]
  exact ⟨rfl, rfl⟩

/-- Witness for `C6_nonpositive_amount_rejected`: the spec's `amount=-5`
donation attempting to complete is rejected on both write paths. -/
theorem C6_nonpositive_amount_rejected_witness :
    insertDonation sampleDB { completedSample with amount := -5 } = none ∧
    updateDonation sampleDB sampleDonation
      { completedSample with amount := -5 } 5 = none :=
  C6_nonpositive_amount_rejected sampleDB
    { completedSample with amount := -5 } sampleDonation 5 (by decide)

/-- Claim C3 (refuted as stated): replaying the status sequence
`pending → completed → refunded → completed` of the 40-cent sample
donation against its project (goal 1000, raised 0) credits the amount
TWICE — final `raised_amount = 80`, not the 40 the "exactly once, never
again even after re-entering completed" claim predicts: the trigger's
guard `OLD.status != 'completed'` re-fires on every re-entry. -/
theorem C3_counterexample :
    ((runStatusTransitions sampleDonation 5 DonationStatus.pending
        [DonationStatus.completed, DonationStatus.refunded,
         DonationStatus.completed] [bigGoalProject]).map
        (fun p => p.raised_amount) = [80]) ∧
    ¬ ((runStatusTransitions sampleDonation 5 DonationStatus.pending
        [DonationStatus.completed, DonationStatus.refunded,
         DonationStatus.completed] [bigGoalProject]).map
        (fun p => p.raised_amount) = [40]) := by
  decide

/-- Claim C3, amended: across any sequence of status writes to one
donation row, its project's `raised_amount` grows by the donation amount
once per TRANSITION INTO `completed` — a donation whose status leaves
`completed` and re-enters it is credited again, once for each re-entry
(exactly once holds only for sequences entering `completed` once). -/
theorem C3_credit_per_completion_entry (d : Donation) (now : Nat) :
    ∀ (seq : List DonationStatus) (cur : DonationStatus) (p : Project),
      p.id = d.project_id →
      (runStatusTransitions d now cur seq [p]).map (fun q => q.raised_amount)
        = [p.raised_amount + d.amount * (entriesIntoCompleted cur seq : Int)] := by
  intro seq
  induction seq with
  | nil =>
      intro cur p hid
      simp [runStatusTransitions, entriesIntoCompleted]
  | cons s rest ih =>
      intro cur p hid
      by_cases hc : s = DonationStatus.completed ∧ cur ≠ DonationStatus.completed
      · have hstep : (update_project_raised_amount { d with status := cur }
            { d with status := s } now [p]).1
            = [applyCompletedDonation d.amount now p] := by
          simp [update_project_raised_amount, triggerProjectRow, hc.1, hc.2, hid]
        simp only [runStatusTransitions, hstep]
        rw [ih s (applyCompletedDonation d.amount now p)
          (by simp [applyCompletedDonation, hid])]
        simp only [applyCompletedDonation, entriesIntoCompleted, if_pos hc]
        push_cast
        ring_nf
      · have hrow : triggerProjectRow { d with status := cur }
            { d with status := s } now p = p := by
          unfold triggerProjectRow
          split
          · next h => exact absurd h hc
          · rfl
        have hstep : (update_project_raised_amount { d with status := cur }
            { d with status := s } now [p]).1 = [p] := by
          simp [update_project_raised_amount, hrow]
        simp only [runStatusTransitions, hstep]
        rw [ih s p hid]
        simp only [entriesIntoCompleted, if_neg hc]
        push_cast
        ring_nf

/-- Witness for `C3_credit_per_completion_entry` on the double-credit
sequence: two entries into `completed`, so the project ends at
`0 + 40 * 2 = 80`. -/
theorem C3_credit_per_completion_entry_witness :
    (runStatusTransitions sampleDonation 5 DonationStatus.pending
        [DonationStatus.completed, DonationStatus.refunded,
         DonationStatus.completed] [bigGoalProject]).map
        (fun q => q.raised_amount) = [80] := by
  simpa using C3_credit_per_completion_entry sampleDonation 5
    [DonationStatus.completed, DonationStatus.refunded,
     DonationStatus.completed] DonationStatus.pending bigGoalProject
    (by decide)

/-- Claim C7 (confirmed): provided the completing donation's stored amount
is positive (the `CHECK (amount > 0)` constraint), no trigger invocation
— including one for a `completed → refunded` transition, which performs
no decrement — ever decreases any project's `raised_amount`: every row of
the resulting `projects` table is pointwise at least its old value. -/
theorem C7_raised_amount_monotone (oldD newD : Donation) (now : Nat)
    (projects : List Project) (hpos : 0 < newD.amount) :
    List.Forall₂ (fun p q => p.raised_amount ≤ q.raised_amount) projects
      (update_project_raised_amount oldD newD now projects).1 := by
  unfold update_project_raised_amount
  rw [List.forall₂_map_right_iff]
  rw [List.forall₂_same]
  intro p _
  unfold triggerProjectRow applyCompletedDonation
  split
  · split
    · simp only []
      omega
    · exact le_refl _
  · exact le_refl _

/-- Witness for `C7_raised_amount_monotone`: the concrete completing
40-cent donation applied to the one-row sample table. -/
theorem C7_raised_amount_monotone_witness :
    List.Forall₂ (fun p q => p.raised_amount ≤ q.raised_amount)
      [sampleProject]
      (update_project_raised_amount sampleDonation completedSample 5
        [sampleProject]).1 :=
  C7_raised_amount_monotone sampleDonation completedSample 5
    [sampleProject] (by decide)

/-- Claim C8 (confirmed): when the completing donation references a
project id with no existing row, the foreign-key check rejects the write
as a whole — insert and update both abort with no state change — and in
any case the trigger's `UPDATE ... WHERE id = NEW.project_id` leaves
every project row with a different id untouched. -/
theorem C8_missing_project_rejected (db : DB) (oldD newD : Donation)
    (now : Nat) :
    (projectExists db newD.project_id = false →
      insertDonation db newD = none ∧ updateDonation db oldD newD now = none) ∧
    (∀ p : Project, p.id ≠ newD.project_id →
      triggerProjectRow oldD newD now p = p) := by
  constructor
  · intro hfk
    have hval : donationRowValid db newD = false := by
      unfold donationRowValid
      rw [hfk]
      simp
    unfold insertDonation updateDonation
    rw [hval]
    exact ⟨rfl, rfl⟩
  · intro p hne
    unfold triggerProjectRow
    split
    · rfl
    · rfl

/-- Witness for `C8_missing_project_rejected`: a donation pointing at the
absent project id 99 is rejected on both write paths against the sample
database, and a row with id 1 is untouched by a trigger run for project
id 99. -/
theorem C8_missing_project_rejected_witness :
    (insertDonation sampleDB { completedSample with project_id := 99 } = none ∧
     updateDonation sampleDB sampleDonation
       { completedSample with project_id := 99 } 5 = none) ∧
    triggerProjectRow sampleDonation { completedSample with project_id := 99 }
      5 sampleProject = sampleProject := by
  refine ⟨(C8_missing_project_rejected sampleDB sampleDonation
    { completedSample with project_id := 99 } 5).1 (by decide),
    (C8_missing_project_rejected sampleDB sampleDonation
    { completedSample with project_id := 99 } 5).2 sampleProject (by decide)⟩

/-- Claim C9 (confirmed): the trigger returns `NEW` unmodified (it never
rewrites the donation row), leaves every project row whose id differs
from `NEW.project_id` entirely unchanged, and on the matched row touches
none of `id`, `creator_id`, `title`, `goal_amount`, `end_date` or
`created_at` — only `raised_amount`, `status` and `updated_at` can
change. -/
theorem C9_frame (oldD newD : Donation) (now : Nat)
    (projects : List Project) (p : Project) :
    (update_project_raised_amount oldD newD now projects).2 = newD ∧
    (p.id ≠ newD.project_id → triggerProjectRow oldD newD now p = p) ∧
    (triggerProjectRow oldD newD now p).id = p.id ∧
    (triggerProjectRow oldD newD now p).creator_id = p.creator_id ∧
    (triggerProjectRow oldD newD now p).title = p.title ∧
    (triggerProjectRow oldD newD now p).goal_amount = p.goal_amount ∧
    (triggerProjectRow oldD newD now p).end_date = p.end_date ∧
    (triggerProjectRow oldD newD now p).created_at = p.created_at := by
  refine ⟨rfl, fun hne => ?_, ?_, ?_, ?_, ?_, ?_, ?_⟩
  · unfold triggerProjectRow
    split
    · rfl
    · rfl
  all_goals
    unfold triggerProjectRow applyCompletedDonation
    split
    · split
      · rfl
      · rfl
    · rfl

/-- Witness for `C9_frame`: the completing sample donation against the
sample project row. -/
theorem C9_frame_witness :
    (update_project_raised_amount sampleDonation completedSample 5
      [sampleProject]).2 = completedSample ∧
    (triggerProjectRow sampleDonation completedSample 5
      sampleProject).goal_amount = sampleProject.goal_amount := by
  have h := C9_frame sampleDonation completedSample 5
    [sampleProject] sampleProject
  exact ⟨h.1, h.2.2.2.2.2.1⟩

/-- Claim C10 (confirmed): the only status value the ledger updater ever
writes is `fully_funded` — after any trigger invocation every project
row's status is either its previous value or `fully_funded`, and a row
already `fully_funded` stays `fully_funded`. -/
theorem C10_only_writes_fully_funded (oldD newD : Donation) (now : Nat)
    (p : Project) :
    ((triggerProjectRow oldD newD now p).status = p.status ∨
     (triggerProjectRow oldD newD now p).status = ProjectStatus.fully_funded) ∧
    (p.status = ProjectStatus.fully_funded →
     (triggerProjectRow oldD newD now p).status = ProjectStatus.fully_funded) := by
  have hcase : (triggerProjectRow oldD newD now p).status = p.status ∨
      (triggerProjectRow oldD newD now p).status = ProjectStatus.fully_funded := by
    unfold triggerProjectRow applyCompletedDonation
    split
    · split
      · split
        · exact Or.inr rfl
        · exact Or.inl rfl
      · exact Or.inl rfl
    · exact Or.inl rfl
  refine ⟨hcase, fun hff => ?_⟩
  rcases hcase with h | h
  · rw [h, hff]
  · exact h

/-- Witness for `C10_only_writes_fully_funded`: the completing sample
donation against a project row already `fully_funded`. -/
theorem C10_only_writes_fully_funded_witness :
    (triggerProjectRow sampleDonation completedSample 5
      { sampleProject with status := ProjectStatus.fully_funded }).status
      = ProjectStatus.fully_funded :=
  (C10_only_writes_fully_funded sampleDonation completedSample 5
    { sampleProject with status := ProjectStatus.fully_funded }).2 rfl

end HopeGate
